import Mathlib

/-!
Shallow embedding of the session/authentication core of the hospital
patient-records frontend (`src/frontend/auth.js`, `src/frontend/scripts.js`,
and the registration page's inline form handler).

Modelling conventions:
* `localStorage` with its three keys `access_token`, `refresh_token`, `user`
  becomes the record `Store`.  The `user` slot holds the parsed user record:
  `login` serializes exactly the record it builds and `getUser` parses it back,
  so the JSON round trip is the identity.
* Network interaction is modelled by passing each operation the outcome of the
  single HTTP request it issues (`RefreshOutcome`, `LoginOutcome`, ...) and by
  returning the list of requests the operation issued (`List Call`), so that
  "no network call", "exactly one refresh call" etc. are statements about that
  trace.  Awaited effects are sequentialized in program order.
* `Date.now()` and JWT `exp` values are JS numbers holding integers far below
  2^53, where double arithmetic is exact, so they are modelled as `Int`.
* JS truthiness on stored strings: `localStorage.getItem` returns `null`
  (here `none`) for a missing key, and both `null` and the empty string are
  falsy; every `if (token)`-style test in the source is modelled by an
  explicit `none`/`""` test.
-/

namespace HPMS

/-- The three `localStorage` keys used by `auth.js`. -/
structure User where
  id : String
  username : String
  firstName : String
  lastName : String
  role : String
deriving DecidableEq, Repr

structure Store where
  access_token : Option String
  refresh_token : Option String
  user : Option User
deriving DecidableEq, Repr

/-- The store with all three keys removed (state after `logout`, and the
initial state of a fresh browser profile). -/
def emptyStore : Store := ⟨none, none, none⟩

/-- JS truthiness of a `localStorage.getItem` result: `null` and `""` are
falsy, every other string is truthy. -/
def truthy : Option String → Bool
  | none => false
  | some s => s ≠ ""

/-- `getAccessToken()` (auth.js line 241). -/
def getAccessToken (s : Store) : Option String := s.access_token

/-- `getRefreshToken()` (auth.js line 249). -/
def getRefreshToken (s : Store) : Option String := s.refresh_token

/-- `getUser()` (auth.js line 257): parses the cached JSON user, `null` when
absent (the stored JSON is the serialization `login` wrote, so parsing it
back yields the same record). -/
def getUser (s : Store) : Option User := s.user

/-- Fetch options as assembled by the callers of `authFetch`/`withAuth`:
a method, a body, and a header object modelled as an association list with
JS-object semantics (string keys, insertion order, later assignment
overrides in place). -/
structure FetchOptions where
  method : Option String
  body : Option String
  headers : List (String × String)
deriving DecidableEq, Repr

/-- `{...headers, [k]: v}`: overrides the value at an existing key in place,
otherwise appends the new key at the end, as JS object spread does. -/
def setHeader : List (String × String) → String → String → List (String × String)
  | [], k, v => [(k, v)]
  | (k₀, v₀) :: rest, k, v =>
    if k₀ = k then (k, v) :: rest else (k₀, v₀) :: setHeader rest k v

/-- Header lookup (first occurrence, as in a JS object where keys are unique). -/
def getHeader : List (String × String) → String → Option String
  | [], _ => none
  | (k₀, v₀) :: rest, k => if k₀ = k then some v₀ else getHeader rest k

/-- One HTTP request issued by the auth module; operations return the ordered
list of requests they issued. -/
structure RegisterPayload where
  first_name : String
  last_name : String
  username : String
  email : String
  password : String
deriving DecidableEq, Repr

inductive Call where
  | fetchReq (url : String) (opts : FetchOptions)
  | loginReq (username : String) (password : String)
  | registerReq (payload : RegisterPayload)
  | logoutReq (accessToken : String)
  | refreshReq (refreshToken : String)
deriving DecidableEq, Repr

/-- `withAuth(options)` (auth.js lines 277-291): returns the options
unchanged when no (truthy) access token is stored, else spreads the options
and sets the `Authorization` header to `Bearer <token>`. -/
def withAuth (s : Store) (options : FetchOptions) : FetchOptions :=
  match s.access_token with
  | none => options
  | some token =>
    if token = "" then options
    else { options with headers := setHeader options.headers "Authorization" ("Bearer " ++ token) }

/-- `logout()` (auth.js lines 175-197): best-effort server invalidation using
the current access token (response and errors ignored), then unconditionally
removes all three keys. -/
def logout (s : Store) : Store × List Call :=
  match s.access_token with
  | none => (emptyStore, [])
  | some t => if t = "" then (emptyStore, []) else (emptyStore, [Call.logoutReq t])

/-- Outcome of the `POST /api/auth/refresh` request: a transport error
(`fetch` or `response.json()` throwing), or a response with its `ok` flag and
the `access_token` field of its JSON body. -/
inductive RefreshOutcome where
  | netthrow
  | resp (ok : Bool) (access_token : String)
deriving DecidableEq, Repr

/-- `refreshAccessToken()` (auth.js lines 203-235): no-op returning `false`
when no truthy refresh token is stored; otherwise issues the refresh request;
on a non-ok response or a throw it logs out (clearing the whole store) and
returns `false`; on success it stores the new access token and returns
`true`. -/
def refreshAccessToken (o : RefreshOutcome) (s : Store) : Bool × Store × List Call :=
  match s.refresh_token with
  | none => (false, s, [])
  | some rt =>
    if rt = "" then (false, s, [])
    else
      match o with
      | RefreshOutcome.netthrow =>
        let r := logout s
        (false, r.1, Call.refreshReq rt :: r.2)
      | RefreshOutcome.resp ok tok =>
        if ok then
          (true, { s with access_token := some tok }, [Call.refreshReq rt])
        else
          let r := logout s
          (false, r.1, Call.refreshReq rt :: r.2)

/-- JSON body of a login response (fields of `data` read by `login`; `error`
is `none` when absent or falsy). -/
structure LoginData where
  error : Option String
  access_token : String
  refresh_token : String
  user_id : String
  username : String
  first_name : String
  last_name : String
  role : String
deriving DecidableEq, Repr

/-- Outcome of the `POST /api/auth/login` request. -/
inductive LoginOutcome where
  | netthrow
  | resp (ok : Bool) (data : LoginData)
deriving DecidableEq, Repr

/-- The uniform result shape `{success, user | message}` returned by `login`. -/
inductive LoginResult where
  | ok (user : User)
  | err (message : String)
deriving DecidableEq, Repr

/-- `login(username, password)` (auth.js lines 83-132): posts the
credentials; on a non-ok response returns the server error (or
`Login failed`) without touching the store; on success stores both tokens
and the serialized user record and returns the user; a transport error
yields the network-error message and no store mutation. -/
def login (o : LoginOutcome) (s : Store) (username password : String) :
    LoginResult × Store × List Call :=
  match o with
  | LoginOutcome.netthrow =>
    (LoginResult.err "Network error. Please try again.", s, [Call.loginReq username password])
  | LoginOutcome.resp ok data =>
    if ok then
      (LoginResult.ok ⟨data.user_id, data.username, data.first_name, data.last_name, data.role⟩,
       ⟨some data.access_token, some data.refresh_token,
        some ⟨data.user_id, data.username, data.first_name, data.last_name, data.role⟩⟩,
       [Call.loginReq username password])
    else
      (LoginResult.err (data.error.getD "Login failed"), s, [Call.loginReq username password])

/-- Outcome of the `POST /api/auth/register` request. -/
inductive RegisterOutcome where
  | netthrow
  | resp (ok : Bool) (error : Option String)
deriving DecidableEq, Repr

/-- The `{success, message}` shape returned by `register`. -/
inductive ApiResult where
  | ok (message : String)
  | err (message : String)
deriving DecidableEq, Repr

/-- `register(userData)` (auth.js lines 139-169): posts the payload and maps
the response to the uniform result shape; never touches the store. -/
def register (o : RegisterOutcome) (payload : RegisterPayload) : ApiResult × List Call :=
  match o with
  | RegisterOutcome.netthrow =>
    (ApiResult.err "Network error. Please try again.", [Call.registerReq payload])
  | RegisterOutcome.resp ok error =>
    if ok then (ApiResult.ok "Registration successful", [Call.registerReq payload])
    else (ApiResult.err (error.getD "Registration failed"), [Call.registerReq payload])

/-- Result of the whole try-block computation
`JSON.parse(atob(token.split('.')[1])).exp` in `isAuthenticated`:
`throws` when `atob`, `JSON.parse` or the property access throws;
`payload (some e)` when it yields a value coercing to the number `e`;
`payload none` when the claim is absent or coerces to `NaN`
(`undefined * 1000` is `NaN`). -/
inductive DecodeResult where
  | throws
  | payload (exp : Option Int)
deriving DecidableEq, Repr

/-- `Date.now() >= payload.exp * 1000` with JS number semantics: a missing
`exp` makes `expiryTime` equal `NaN`, and every comparison against `NaN` is
false. -/
def expiredCheck (now : Int) : Option Int → Bool
  | some e => decide (now ≥ e * 1000)
  | none => false

/-- `isAuthenticated()` (auth.js lines 13-47), parameterized by `Date.now()`
and by the platform's base64url/JSON decoding of the token's middle segment.
No token: `false`.  Decode throws: forced logout, `false`.  Expired
(`Date.now() >= exp * 1000`; with a missing `exp` the comparison against
`NaN` is false, hence not expired): with a truthy refresh token kick off a
refresh and return `false`, otherwise forced logout and `false`.  Unexpired:
`true`. -/
def isAuthenticated (now : Int) (decode : String → DecodeResult) (o : RefreshOutcome)
    (s : Store) : Bool × Store × List Call :=
  match s.access_token with
  | none => (false, s, [])
  | some token =>
    if token = "" then (false, s, [])
    else
      match decode token with
      | DecodeResult.throws =>
        let r := logout s
        (false, r.1, r.2)
      | DecodeResult.payload exp =>
        if expiredCheck now exp then
          match s.refresh_token with
          | some rt =>
            if rt = "" then
              let r := logout s
              (false, r.1, r.2)
            else
              let r := refreshAccessToken o s
              (false, r.2.1, r.2.2)
          | none =>
            let r := logout s
            (false, r.1, r.2)
        else (true, s, [])

/-- An HTTP response as observed by `authFetch` (only the status is read). -/
structure Response where
  status : Int
deriving DecidableEq, Repr

/-- `authFetch(url, options)` (auth.js lines 299-317), parameterized by the
response to the first request, the refresh outcome, and the response to the
retried request.  Attaches the token via `withAuth`, issues the request; if
the status is exactly 401 and a truthy refresh token is stored, refreshes,
and on refresh success re-attaches the (new) token and retries once;
otherwise the first response is returned. -/
def authFetch (r1 : Response) (o : RefreshOutcome) (r2 : Response) (s : Store)
    (url : String) (options : FetchOptions) : Response × Store × List Call :=
  let authOptions := withAuth s options
  if r1.status = 401 ∧ truthy s.refresh_token then
    let r := refreshAccessToken o s
    if r.1 then
      let newAuthOptions := withAuth r.2.1 options
      (r2, r.2.1, Call.fetchReq url authOptions :: r.2.2 ++ [Call.fetchReq url newAuthOptions])
    else
      (r1, r.2.1, Call.fetchReq url authOptions :: r.2.2)
  else
    (r1, s, [Call.fetchReq url authOptions])

/-- Predicate picking the refresh requests out of a trace. -/
def isRefreshReq : Call → Bool
  | Call.refreshReq _ => true
  | _ => false

/-- Predicate picking the domain (`fetch(url, ...)`) requests out of a trace. -/
def isFetchReq : Call → Bool
  | Call.fetchReq _ _ => true
  | _ => false

def countRefreshCalls (t : List Call) : Nat := (t.filter isRefreshReq).length

def countFetchReqs (t : List Call) : Nat := (t.filter isFetchReq).length

/-! ### Role projector (`scripts.js`, `updateUserUI`, lines 56-107)

Only the visibility projection over the elements carrying a
`data-role-access` attribute is modelled; the navbar name/badge updates
touch text and CSS classes of two fixed elements and no visibility. -/

/-- A gated UI element: its raw `data-role-access` attribute value and its
current `style.display`. -/
structure UIElement where
  roleAccess : String
  display : String
deriving DecidableEq, Repr

/-- `','` split with JS `String.prototype.split` semantics:
`"" ↦ [""]`, `"a," ↦ ["a", ""]`, separators are single commas. -/
def splitCommaChars : List Char → List (List Char)
  | [] => [[]]
  | c :: rest =>
    let r := splitCommaChars rest
    if c = ',' then [] :: r
    else
      match r with
      | [] => [[c]]
      | g :: gs => (c :: g) :: gs

/-- ASCII whitespace trimmed by `String.prototype.trim` (the attribute values
in this codebase contain at most these). -/
def isJsWS (c : Char) : Bool := c = ' ' ∨ c = '\t' ∨ c = '\n' ∨ c = '\r'

def trimChars (cs : List Char) : List Char :=
  (((cs.dropWhile isJsWS).reverse).dropWhile isJsWS).reverse

/-- `element.dataset.roleAccess.split(',').map(r => r.trim())`. -/
def allowedRolesOf (attr : String) : List String :=
  (splitCommaChars attr.data).map (fun cs => String.mk (trimChars cs))

/-- The per-element body of the `forEach` in `updateUserUI`: show
(`display = ''`) when the role is in the element's allow-list, hide
(`display = 'none'`) otherwise. -/
def projectElement (role : String) (el : UIElement) : UIElement :=
  if (allowedRolesOf el.roleAccess).contains role then { el with display := "" }
  else { el with display := "none" }

/-- `updateUserUI()` (scripts.js lines 56-107) restricted to the gated
elements: with no cached user it returns early (elements untouched); with a
cached user every `[data-role-access]` element is projected. -/
def updateUserUI (s : Store) (elems : List UIElement) : List UIElement :=
  match getUser s with
  | none => elems
  | some u => elems.map (projectElement u.role)

/-! ### Registration form handler (register page inline script, lines 94-141) -/

/-- `(?=.*[A-Z])` of the password regex. -/
def hasUpper (p : String) : Bool := p.data.any fun c => 'A' ≤ c ∧ c ≤ 'Z'

/-- `(?=.*[0-9])`. -/
def hasDigit (p : String) : Bool := p.data.any fun c => '0' ≤ c ∧ c ≤ '9'

/-- `(?=.*[!@#$%^&*])`. -/
def isPolicySpecial (c : Char) : Bool :=
  c = '!' ∨ c = '@' ∨ c = '#' ∨ c = '$' ∨ c = '%' ∨ c = '^' ∨ c = '&' ∨ c = '*'

def hasSpecial (p : String) : Bool := p.data.any isPolicySpecial

/-- `/^(?=.*[A-Z])(?=.*[0-9])(?=.*[!@#$%^&*])(?=.{8,})/.test(password)` for
newline-free passwords (JS `.` does not cross newlines; no password in the
claims contains one). -/
def passwordRegexTest (p : String) : Bool :=
  hasUpper p ∧ hasDigit p ∧ hasSpecial p ∧ p.length ≥ 8

/-- Client-side outcome of submitting a form: an alert shown without any
network activity, or a payload handed to the Auth Client. -/
inductive FormStep where
  | rejected (message : String)
  | submitted (payload : RegisterPayload)
deriving DecidableEq, Repr

/-- The validation prefix of the `registerForm` submit handler (register page
inline script, lines 105-126): username length, password policy, confirmation
match, in that order; the first failure alerts and returns before `register`
is called. -/
def registerFormSubmit (firstName lastName username email password confirmPassword : String) :
    FormStep :=
  if username.length < 5 then
    FormStep.rejected "Username must be at least 5 characters long"
  else if ¬ passwordRegexTest password then
    FormStep.rejected "Password must be at least 8 characters with at least one uppercase letter, number, and special character"
  else if password ≠ confirmPassword then
    FormStep.rejected "Passwords do not match"
  else
    FormStep.submitted ⟨firstName, lastName, username, email, password⟩

/-- What the user sees after the submit handler ran. -/
inductive HandlerResult where
  | alerted (message : String)
  | apiResult (r : ApiResult)
deriving DecidableEq, Repr

/-- The full `registerForm` submit handler: validation, then (only when it
passed) the `register` network call. -/
def registerFormHandler (o : RegisterOutcome)
    (firstName lastName username email password confirmPassword : String) :
    HandlerResult × List Call :=
  match registerFormSubmit firstName lastName username email password confirmPassword with
  | FormStep.rejected m => (HandlerResult.alerted m, [])
  | FormStep.submitted payload =>
    let r := register o payload
    (HandlerResult.apiResult r.1, r.2)

/-- Modelled from the spec: the login page (`login.html` and its inline form
handler) is not among the provided sources; §4.2 states the validation policy
"username ≥ 5 characters" is performed client-side before calling `login`.
The handler rejects short usernames without any network call and otherwise
delegates to `login`. -/
def loginFormHandler (o : LoginOutcome) (s : Store) (username password : String) :
    HandlerResult × Store × List Call :=
  if username.length < 5 then
    (HandlerResult.alerted "Username must be at least 5 characters long", s, [])
  else
    let r := login o s username password
    (match r.1 with
     | LoginResult.ok _ => HandlerResult.apiResult (ApiResult.ok "Login successful")
     | LoginResult.err m => HandlerResult.apiResult (ApiResult.err m), r.2.1, r.2.2)

/-! ### Helper lemmas -/

theorem truthy_iff (x : Option String) : truthy x = true ↔ ∃ v, x = some v ∧ v ≠ "" := by
  cases x <;> simp [truthy]

theorem truthy_false_iff (x : Option String) :
    truthy x = false ↔ x = none ∨ x = some "" := by
  cases x <;> simp [truthy]

theorem logout_store (s : Store) : (logout s).1 = emptyStore := by
  unfold logout
  rcases s with ⟨a, r, u⟩
  cases a with
  | none => rfl
  | some t => by_cases ht : t = "" <;> simp [ht]

theorem isRefreshReq_fetchReq (url : String) (opts : FetchOptions) :
    isRefreshReq (Call.fetchReq url opts) = false := rfl

theorem isRefreshReq_refreshReq (rt : String) :
    isRefreshReq (Call.refreshReq rt) = true := rfl

theorem isFetchReq_fetchReq (url : String) (opts : FetchOptions) :
    isFetchReq (Call.fetchReq url opts) = true := rfl

theorem countRefresh_nil : countRefreshCalls [] = 0 := rfl

theorem countFetch_nil : countFetchReqs [] = 0 := rfl

theorem logout_trace (s : Store) :
    (logout s).2 = [] ∨ ∃ t, (logout s).2 = [Call.logoutReq t] := by
  unfold logout
  rcases s with ⟨a, r, u⟩
  cases a with
  | none => simp
  | some t =>
    by_cases ht : t = "" <;> simp [ht]

theorem logout_trace_no_fetch (s : Store) (c : Call) (hc : c ∈ (logout s).2) :
    isFetchReq c = false := by
  rcases logout_trace s with h | ⟨t, h⟩ <;> rw [h] at hc
  · simp at hc
  · simp at hc
    subst hc
    rfl

theorem logout_trace_no_refresh (s : Store) (c : Call) (hc : c ∈ (logout s).2) :
    isRefreshReq c = false := by
  rcases logout_trace s with h | ⟨t, h⟩ <;> rw [h] at hc
  · simp at hc
  · simp at hc
    subst hc
    rfl

theorem refresh_ok (s : Store) (rt tok : String) (h : s.refresh_token = some rt)
    (hne : rt ≠ "") :
    refreshAccessToken (RefreshOutcome.resp true tok) s =
      (true, { s with access_token := some tok }, [Call.refreshReq rt]) := by
  unfold refreshAccessToken
  rw [h]
  simp [hne]

theorem refresh_fail (s : Store) (rt : String) (o : RefreshOutcome)
    (h : s.refresh_token = some rt) (hne : rt ≠ "")
    (hf : o = RefreshOutcome.netthrow ∨ ∃ tok, o = RefreshOutcome.resp false tok) :
    refreshAccessToken o s = (false, emptyStore, Call.refreshReq rt :: (logout s).2) := by
  unfold refreshAccessToken
  rw [h]
  rcases hf with hf | ⟨tok, hf⟩ <;> subst hf <;> simp [hne, logout_store]

theorem refresh_no_token (s : Store) (o : RefreshOutcome)
    (h : truthy s.refresh_token = false) :
    refreshAccessToken o s = (false, s, []) := by
  unfold refreshAccessToken
  rcases (truthy_false_iff s.refresh_token).1 h with h' | h'
  · rw [h']
  · rw [h']; simp

theorem refresh_trace_no_fetch (s : Store) (o : RefreshOutcome) (c : Call)
    (hc : c ∈ (refreshAccessToken o s).2.2) : isFetchReq c = false := by
  by_cases ht : truthy s.refresh_token = true
  · rcases (truthy_iff s.refresh_token).1 ht with ⟨rt, h, hne⟩
    cases o with
    | netthrow =>
      rw [refresh_fail s rt _ h hne (Or.inl rfl)] at hc
      rcases List.mem_cons.1 hc with hc | hc
      · subst hc; rfl
      · exact logout_trace_no_fetch s c hc
    | resp ok tok =>
      cases ok with
      | true =>
        rw [refresh_ok s rt tok h hne] at hc
        simp at hc
        subst hc; rfl
      | false =>
        rw [refresh_fail s rt _ h hne (Or.inr ⟨tok, rfl⟩)] at hc
        rcases List.mem_cons.1 hc with hc | hc
        · subst hc; rfl
        · exact logout_trace_no_fetch s c hc
  · rw [refresh_no_token s o (Bool.not_eq_true _ ▸ ht)] at hc
    simp at hc

theorem countRefresh_logout (s : Store) : countRefreshCalls (logout s).2 = 0 := by
  rcases logout_trace s with h | ⟨t, h⟩
  · rw [countRefreshCalls, h]; rfl
  · rw [countRefreshCalls, h]; rfl

theorem countRefresh_cons (c : Call) (l : List Call) :
    countRefreshCalls (c :: l) =
      (if isRefreshReq c then 1 else 0) + countRefreshCalls l := by
  simp only [countRefreshCalls, List.filter_cons]
  split <;> simp [Nat.add_comm]

theorem countFetch_cons (c : Call) (l : List Call) :
    countFetchReqs (c :: l) = (if isFetchReq c then 1 else 0) + countFetchReqs l := by
  simp only [countFetchReqs, List.filter_cons]
  split <;> simp [Nat.add_comm]

theorem countFetch_append (l₁ l₂ : List Call) :
    countFetchReqs (l₁ ++ l₂) = countFetchReqs l₁ + countFetchReqs l₂ := by
  simp [countFetchReqs, List.filter_append]

theorem countFetch_eq_zero (t : List Call) (h : ∀ c ∈ t, isFetchReq c = false) :
    countFetchReqs t = 0 := by
  simp only [countFetchReqs, List.length_eq_zero]
  rw [List.filter_eq_nil_iff]
  intro c hc
  simp [h c hc]

theorem countRefresh_eq_zero (t : List Call) (h : ∀ c ∈ t, isRefreshReq c = false) :
    countRefreshCalls t = 0 := by
  simp only [countRefreshCalls, List.length_eq_zero]
  rw [List.filter_eq_nil_iff]
  intro c hc
  simp [h c hc]

theorem authFetch_eq_refresh (r1 : Response) (o : RefreshOutcome) (r2 : Response)
    (s : Store) (url : String) (options : FetchOptions)
    (h1 : r1.status = 401) (h2 : truthy s.refresh_token = true) :
    authFetch r1 o r2 s url options =
      if (refreshAccessToken o s).1 then
        (r2, (refreshAccessToken o s).2.1,
         Call.fetchReq url (withAuth s options) :: (refreshAccessToken o s).2.2 ++
           [Call.fetchReq url (withAuth (refreshAccessToken o s).2.1 options)])
      else
        (r1, (refreshAccessToken o s).2.1,
         Call.fetchReq url (withAuth s options) :: (refreshAccessToken o s).2.2) := by
  simp [authFetch, h1, h2]

theorem authFetch_eq_plain (r1 : Response) (o : RefreshOutcome) (r2 : Response)
    (s : Store) (url : String) (options : FetchOptions)
    (h : ¬ (r1.status = 401 ∧ truthy s.refresh_token = true)) :
    authFetch r1 o r2 s url options = (r1, s, [Call.fetchReq url (withAuth s options)]) := by
  unfold authFetch
  rw [if_neg]
  simpa using h

/-! ### C1: `authFetch` 401/refresh/retry contract -/

/-- C1. For every `authFetch(url, options)` call: a 401 first response with a
refresh token present triggers exactly one refresh call; when the refresh
succeeds the original request is retried exactly once with the new access
token attached (full trace and final store given structurally); when the
refresh fails the original 401 response is returned unchanged; a 401 with no
refresh token triggers zero refresh calls and the original 401 is returned;
and in no case are more than two domain requests (one retry) issued. -/
theorem authFetch_refresh_retry (r1 : Response) (o : RefreshOutcome) (r2 : Response)
    (s : Store) (url : String) (options : FetchOptions) :
    (r1.status = 401 → truthy s.refresh_token = true →
      countRefreshCalls (authFetch r1 o r2 s url options).2.2 = 1) ∧
    (r1.status = 401 → truthy s.refresh_token = true →
      ∀ tok, o = RefreshOutcome.resp true tok →
      ∃ rt, s.refresh_token = some rt ∧
        authFetch r1 o r2 s url options =
          (r2, { s with access_token := some tok },
           [Call.fetchReq url (withAuth s options), Call.refreshReq rt,
            Call.fetchReq url (withAuth { s with access_token := some tok } options)])) ∧
    (r1.status = 401 → truthy s.refresh_token = true →
      (o = RefreshOutcome.netthrow ∨ ∃ tok, o = RefreshOutcome.resp false tok) →
      (authFetch r1 o r2 s url options).1 = r1) ∧
    (r1.status = 401 → truthy s.refresh_token = false →
      countRefreshCalls (authFetch r1 o r2 s url options).2.2 = 0 ∧
      (authFetch r1 o r2 s url options).1 = r1) ∧
    countFetchReqs (authFetch r1 o r2 s url options).2.2 ≤ 2 := by
  refine ⟨?_, ?_, ?_, ?_, ?_⟩
  · intro h1 h2
    rcases (truthy_iff s.refresh_token).1 h2 with ⟨rt, hrt, hne⟩
    rw [authFetch_eq_refresh r1 o r2 s url options h1 h2]
    cases o with
    | netthrow =>
      rw [refresh_fail s rt _ hrt hne (Or.inl rfl)]
      simp [countRefresh_cons, isRefreshReq_fetchReq, isRefreshReq_refreshReq,
        countRefresh_logout s]
    | resp ok tok =>
      cases ok with
      | true =>
        rw [refresh_ok s rt tok hrt hne]
        simp [countRefresh_cons, isRefreshReq_fetchReq, isRefreshReq_refreshReq,
          countRefresh_nil]
      | false =>
        rw [refresh_fail s rt _ hrt hne (Or.inr ⟨tok, rfl⟩)]
        simp [countRefresh_cons, isRefreshReq_fetchReq, isRefreshReq_refreshReq,
          countRefresh_logout s]
  · intro h1 h2 tok ho
    subst ho
    rcases (truthy_iff s.refresh_token).1 h2 with ⟨rt, hrt, hne⟩
    refine ⟨rt, hrt, ?_⟩
    rw [authFetch_eq_refresh _ _ _ _ _ _ h1 h2, refresh_ok s rt tok hrt hne]
    simp
  · intro h1 h2 hf
    rcases (truthy_iff s.refresh_token).1 h2 with ⟨rt, hrt, hne⟩
    rw [authFetch_eq_refresh _ _ _ _ _ _ h1 h2, refresh_fail s rt o hrt hne hf]
    simp
  · intro h1 h2
    rw [authFetch_eq_plain _ _ _ _ _ _ (by simp [h2])]
    simp [countRefreshCalls, List.filter, isRefreshReq]
  · by_cases hc : r1.status = 401 ∧ truthy s.refresh_token = true
    · rw [authFetch_eq_refresh _ _ _ _ _ _ hc.1 hc.2]
      have hz : countFetchReqs (refreshAccessToken o s).2.2 = 0 :=
        countFetch_eq_zero _ (fun c hmem => refresh_trace_no_fetch s o c hmem)
      split <;> dsimp only <;>
        simp [countFetch_cons, countFetch_append, hz, isFetchReq_fetchReq, countFetch_nil]
    · rw [authFetch_eq_plain _ _ _ _ _ _ hc]
      simp [countFetchReqs, List.filter, isFetchReq]

/-- Witness for C1: concrete 401-refresh-retry run (refresh succeeds). -/
theorem authFetch_refresh_retry_witness :
    countRefreshCalls
        (authFetch ⟨401⟩ (RefreshOutcome.resp true "new") ⟨200⟩
          ⟨some "old", some "rt", some ⟨"1", "u", "f", "l", "nurse"⟩⟩ "api" ⟨none, none, []⟩).2.2 = 1 ∧
      (authFetch ⟨401⟩ (RefreshOutcome.resp true "new") ⟨200⟩
          ⟨some "old", some "rt", some ⟨"1", "u", "f", "l", "nurse"⟩⟩ "api" ⟨none, none, []⟩).1 = ⟨200⟩ := by
  have h := authFetch_refresh_retry ⟨401⟩ (RefreshOutcome.resp true "new") ⟨200⟩
    ⟨some "old", some "rt", some ⟨"1", "u", "f", "l", "nurse"⟩⟩ "api" ⟨none, none, []⟩
  refine ⟨h.1 rfl (by decide), ?_⟩
  rcases h.2.1 rfl (by decide) "new" rfl with ⟨rt, _, heq⟩
  rw [heq]

theorem getHeader_setHeader_self (hs : List (String × String)) (k v : String) :
    getHeader (setHeader hs k v) k = some v := by
  induction hs with
  | nil => simp [setHeader, getHeader]
  | cons p rest ih =>
    rcases p with ⟨k₀, v₀⟩
    by_cases hk : k₀ = k <;> simp [setHeader, getHeader, hk, ih]

theorem getHeader_setHeader_ne (hs : List (String × String)) (k v k' : String)
    (h : k' ≠ k) : getHeader (setHeader hs k v) k' = getHeader hs k' := by
  induction hs with
  | nil => simp [setHeader, getHeader, h, Ne.symm h]
  | cons p rest ih =>
    rcases p with ⟨k₀, v₀⟩
    by_cases hk : k₀ = k
    · subst hk
      simp [setHeader, getHeader, Ne.symm h]
    · simp [setHeader, getHeader, hk, ih]

/-! ### C10: `withAuth` frame conditions -/

/-- C10. `withAuth` returns the options unchanged when no (truthy) access
token is stored; with a stored token it preserves `method`, `body` and every
caller-supplied header other than `Authorization`, and sets `Authorization`
to `Bearer` plus the current token; and every domain request `authFetch`
issues (first attempt and post-refresh retry alike) carries options of the
form `withAuth s' options` for the store current at that point. -/
theorem withAuth_frame (s : Store) (options : FetchOptions) :
    (truthy s.access_token = false → withAuth s options = options) ∧
    (∀ t, s.access_token = some t → t ≠ "" →
      (withAuth s options).method = options.method ∧
      (withAuth s options).body = options.body ∧
      getHeader (withAuth s options).headers "Authorization" = some ("Bearer " ++ t) ∧
      (∀ k, k ≠ "Authorization" →
        getHeader (withAuth s options).headers k = getHeader options.headers k)) ∧
    (∀ r1 o r2 url c, c ∈ (authFetch r1 o r2 s url options).2.2 → isFetchReq c = true →
      ∃ s', c = Call.fetchReq url (withAuth s' options)) := by
  refine ⟨?_, ?_, ?_⟩
  · intro h
    rcases (truthy_false_iff s.access_token).1 h with h' | h' <;> simp [withAuth, h']
  · intro t ht hne
    unfold withAuth
    rw [ht]
    simp only [if_neg hne]
    refine ⟨?_, ?_, ?_, ?_⟩
    · trivial
    · trivial
    · exact getHeader_setHeader_self _ _ _
    · exact fun k hk => getHeader_setHeader_ne _ _ _ _ hk
  · intro r1 o r2 url c hc hfetch
    by_cases hcond : r1.status = 401 ∧ truthy s.refresh_token = true
    · rw [authFetch_eq_refresh _ _ _ _ _ _ hcond.1 hcond.2] at hc
      by_cases hr : (refreshAccessToken o s).1 = true
      · rw [if_pos hr] at hc
        rcases List.mem_cons.1 hc with hc | hc
        · exact ⟨s, hc⟩
        · rcases List.mem_append.1 hc with hc | hc
          · rw [refresh_trace_no_fetch s o c hc] at hfetch
            cases hfetch
          · simp at hc
            exact ⟨(refreshAccessToken o s).2.1, hc⟩
      · rw [if_neg hr] at hc
        rcases List.mem_cons.1 hc with hc | hc
        · exact ⟨s, hc⟩
        · rw [refresh_trace_no_fetch s o c hc] at hfetch
          cases hfetch
    · rw [authFetch_eq_plain _ _ _ _ _ _ hcond] at hc
      simp at hc
      exact ⟨s, hc⟩

/-- Witness for C10: concrete store and options with an extra caller header. -/
theorem withAuth_frame_witness :
    withAuth ⟨none, none, none⟩ ⟨some "POST", some "b", [("Content-Type", "application/json")]⟩ =
        ⟨some "POST", some "b", [("Content-Type", "application/json")]⟩ ∧
      getHeader
          (withAuth ⟨some "T", none, none⟩
            ⟨some "POST", some "b", [("Content-Type", "application/json")]⟩).headers
          "Content-Type" = some "application/json" ∧
      getHeader
          (withAuth ⟨some "T", none, none⟩
            ⟨some "POST", some "b", [("Content-Type", "application/json")]⟩).headers
          "Authorization" = some "Bearer T" := by
  have h₁ := withAuth_frame ⟨none, none, none⟩
    ⟨some "POST", some "b", [("Content-Type", "application/json")]⟩
  have h₂ := withAuth_frame ⟨some "T", none, none⟩
    ⟨some "POST", some "b", [("Content-Type", "application/json")]⟩
  refine ⟨h₁.1 (by decide), ?_, ?_⟩
  · have := (h₂.2.1 "T" rfl (by decide)).2.2.2 "Content-Type" (by decide)
    rw [this]
    rfl
  · exact (h₂.2.1 "T" rfl (by decide)).2.2.1

/-! ### `isAuthenticated` branch lemmas -/

theorem isAuth_no_token (now : Int) (decode : String → DecodeResult) (o : RefreshOutcome)
    (s : Store) (h : truthy s.access_token = false) :
    isAuthenticated now decode o s = (false, s, []) := by
  rcases (truthy_false_iff _).1 h with h' | h' <;> simp [isAuthenticated, h']

theorem isAuth_throws (now : Int) (decode : String → DecodeResult) (o : RefreshOutcome)
    (s : Store) (t : String) (ht : s.access_token = some t) (hne : t ≠ "")
    (hd : decode t = DecodeResult.throws) :
    isAuthenticated now decode o s = (false, emptyStore, [Call.logoutReq t]) := by
  simp [isAuthenticated, ht, hne, hd, logout]

theorem isAuth_valid_case (now : Int) (decode : String → DecodeResult) (o : RefreshOutcome)
    (s : Store) (t : String) (exp : Option Int) (ht : s.access_token = some t)
    (hne : t ≠ "") (hd : decode t = DecodeResult.payload exp)
    (hexp : expiredCheck now exp = false) :
    isAuthenticated now decode o s = (true, s, []) := by
  simp [isAuthenticated, ht, hne, hd, hexp]

theorem isAuth_expired_refresh (now : Int) (decode : String → DecodeResult)
    (o : RefreshOutcome) (s : Store) (t : String) (e : Int)
    (ht : s.access_token = some t) (hne : t ≠ "")
    (hd : decode t = DecodeResult.payload (some e)) (hexp : now ≥ e * 1000)
    (hr : truthy s.refresh_token = true) :
    isAuthenticated now decode o s =
      (false, (refreshAccessToken o s).2.1, (refreshAccessToken o s).2.2) := by
  rcases (truthy_iff _).1 hr with ⟨rt, hrt, hrne⟩
  simp [isAuthenticated, ht, hne, hd, expiredCheck, hexp, hrt, hrne]

theorem isAuth_expired_terminal (now : Int) (decode : String → DecodeResult)
    (o : RefreshOutcome) (s : Store) (t : String) (e : Int)
    (ht : s.access_token = some t) (hne : t ≠ "")
    (hd : decode t = DecodeResult.payload (some e)) (hexp : now ≥ e * 1000)
    (hr : truthy s.refresh_token = false) :
    isAuthenticated now decode o s = (false, emptyStore, [Call.logoutReq t]) := by
  rcases (truthy_false_iff _).1 hr with h' | h' <;>
    simp [isAuthenticated, ht, hne, hd, expiredCheck, hexp, h', logout]

/-! ### C8: expiry boundary of the token validator -/

/-- C8. For a stored token whose payload decodes with a numeric `exp`,
`isAuthenticated` reports authenticated exactly when the current time is
strictly below `exp * 1000`: an `exp` in the past (or equal, since the check
is `now >= expiry`) yields `false`, an `exp` strictly in the future yields
`true`. -/
theorem isAuthenticated_expiry (now : Int) (decode : String → DecodeResult)
    (o : RefreshOutcome) (s : Store) (t : String) (e : Int)
    (ht : s.access_token = some t) (hne : t ≠ "")
    (hd : decode t = DecodeResult.payload (some e)) :
    (isAuthenticated now decode o s).1 = decide (now < e * 1000) := by
  by_cases he : now ≥ e * 1000
  · have hlt : ¬ (now < e * 1000) := not_lt.2 he
    by_cases hr : truthy s.refresh_token = true
    · rw [isAuth_expired_refresh now decode o s t e ht hne hd he hr]
      simp [hlt]
    · rw [isAuth_expired_terminal now decode o s t e ht hne hd he
        (Bool.not_eq_true _ ▸ hr)]
      simp [hlt]
  · have hexp : expiredCheck now (some e) = false := by
      simp [expiredCheck, he]
    rw [isAuth_valid_case now decode o s t (some e) ht hne hd hexp]
    simp [not_le.1 he]

/-- Witness for C8: the boundary `Date.now() = exp * 1000` reports invalid. -/
theorem isAuthenticated_expiry_witness :
    (isAuthenticated 5000 (fun _ => DecodeResult.payload (some 5)) RefreshOutcome.netthrow
      ⟨some "t1", none, none⟩).1 = false := by
  have h := isAuthenticated_expiry 5000 (fun _ => DecodeResult.payload (some 5))
    RefreshOutcome.netthrow ⟨some "t1", none, none⟩ "t1" 5 rfl (by decide) rfl
  rw [h]
  decide

/-! ### C2: malformed tokens -/

/-- Counterexample for C2 as stated: a token whose middle segment decodes to
a JSON payload with no `exp` claim is reported authenticated (`true`) and the
session is left in place — not reported invalid, no forced logout.  (In JS,
`payload.exp * 1000` is `NaN` and `Date.now() >= NaN` is `false`.) -/
theorem isAuthenticated_missing_exp_cex :
    isAuthenticated 0 (fun _ => DecodeResult.payload none) RefreshOutcome.netthrow
        ⟨some "x.y.z", some "r", some ⟨"1", "u", "f", "l", "nurse"⟩⟩ =
      (true, ⟨some "x.y.z", some "r", some ⟨"1", "u", "f", "l", "nurse"⟩⟩, []) := by
  decide

/-- C2 (amended). A stored token whose decode pipeline throws (middle segment
not decodable as base64 JSON, or the property access failing) is reported
invalid and triggers forced logout (store cleared, best-effort server
logout); but a token that decodes to a payload with no `exp` claim is treated
as valid and triggers no logout. -/
theorem isAuthenticated_malformed (now : Int) (decode : String → DecodeResult)
    (o : RefreshOutcome) (s : Store) (t : String)
    (ht : s.access_token = some t) (hne : t ≠ "") :
    (decode t = DecodeResult.throws →
      isAuthenticated now decode o s = (false, emptyStore, [Call.logoutReq t])) ∧
    (decode t = DecodeResult.payload none →
      isAuthenticated now decode o s = (true, s, [])) := by
  refine ⟨fun hd => isAuth_throws now decode o s t ht hne hd,
    fun hd => isAuth_valid_case now decode o s t none ht hne hd rfl⟩

/-- Witness for C2 (amended): an undecodable token forces logout; a
decodable token without `exp` is accepted. -/
theorem isAuthenticated_malformed_witness :
    isAuthenticated 0 (fun _ => DecodeResult.throws) RefreshOutcome.netthrow
        ⟨some "garbage", some "r", some ⟨"1", "u", "f", "l", "nurse"⟩⟩ =
      (false, emptyStore, [Call.logoutReq "garbage"]) := by
  exact (isAuthenticated_malformed 0 (fun _ => DecodeResult.throws) RefreshOutcome.netthrow
    ⟨some "garbage", some "r", some ⟨"1", "u", "f", "l", "nurse"⟩⟩ "garbage" rfl
    (by decide)).1 rfl

/-! ### C5: side effects of the validity check -/

/-- Counterexample for C5 as stated: on a store holding an expired token and
no refresh token, evaluating `isAuthenticated` mutates the Token Store (it
clears all three keys) and initiates a network call (the logout request), so
the check is not side-effect free for every store state. -/
theorem isAuthenticated_side_effects_cex :
    isAuthenticated 1 (fun _ => DecodeResult.payload (some 0)) RefreshOutcome.netthrow
        ⟨some "tkn", none, some ⟨"1", "u", "f", "l", "nurse"⟩⟩ =
      (false, emptyStore, [Call.logoutReq "tkn"]) ∧
    (⟨some "tkn", none, some ⟨"1", "u", "f", "l", "nurse"⟩⟩ : Store) ≠ emptyStore := by
  refine ⟨by decide, by decide⟩

/-- C5 (amended). `isAuthenticated` is a pure read (store unchanged, no
network request) whenever no truthy token is stored or the stored token
decodes with an expiry not yet reached (the cases where it can return
`true`); on expired or undecodable tokens it triggers a refresh or a forced
logout, so it is not side-effect free on every store state. -/
theorem isAuthenticated_pure_cases (now : Int) (decode : String → DecodeResult)
    (o : RefreshOutcome) (s : Store) :
    (truthy s.access_token = false → isAuthenticated now decode o s = (false, s, [])) ∧
    (∀ t exp, s.access_token = some t → t ≠ "" → decode t = DecodeResult.payload exp →
      expiredCheck now exp = false → isAuthenticated now decode o s = (true, s, [])) := by
  exact ⟨isAuth_no_token now decode o s,
    fun t exp ht hne hd hexp => isAuth_valid_case now decode o s t exp ht hne hd hexp⟩

/-- Witness for C5 (amended): an unexpired token is validated without any
store mutation or network call. -/
theorem isAuthenticated_pure_cases_witness :
    isAuthenticated 10 (fun _ => DecodeResult.payload (some 1)) RefreshOutcome.netthrow
        ⟨some "ok", some "r", some ⟨"1", "u", "f", "l", "nurse"⟩⟩ =
      (true, ⟨some "ok", some "r", some ⟨"1", "u", "f", "l", "nurse"⟩⟩, []) := by
  exact (isAuthenticated_pure_cases 10 (fun _ => DecodeResult.payload (some 1))
    RefreshOutcome.netthrow
    ⟨some "ok", some "r", some ⟨"1", "u", "f", "l", "nurse"⟩⟩).2 "ok" (some 1) rfl
    (by decide) rfl (by decide)

/-! ### C3: role projector -/

/-- Counterexample for C3 as stated: with no cached user, `updateUserUI`
returns early, so a gated element that was visible stays visible — gated
elements are not hidden (not fail closed) when no cached user/role is
present. -/
theorem updateUserUI_no_user_cex :
    updateUserUI emptyStore [⟨"doctor,admin", ""⟩] = [⟨"doctor,admin", ""⟩] ∧
      (UIElement.mk "doctor,admin" "").display ≠ "none" := by
  exact ⟨rfl, by decide⟩

/-- C3 (amended). With a cached user present, every gated element is shown
iff the user's role is in the element's trimmed comma-separated allow-list
and hidden otherwise (so an unrecognized role is hidden wherever it appears
in no allow-list); with no cached user, `updateUserUI` returns early and
leaves every element's visibility unchanged rather than hiding it. -/
theorem updateUserUI_role_projection (s : Store) (elems : List UIElement) :
    (getUser s = none → updateUserUI s elems = elems) ∧
    (∀ u, getUser s = some u →
      updateUserUI s elems = elems.map (projectElement u.role) ∧
      ∀ el : UIElement,
        ((projectElement u.role el).display = "" ↔
          (allowedRolesOf el.roleAccess).contains u.role = true) ∧
        ((projectElement u.role el).display = "none" ↔
          (allowedRolesOf el.roleAccess).contains u.role = false)) := by
  refine ⟨fun h => by simp [updateUserUI, h], fun u hu => ⟨by simp [updateUserUI, hu], ?_⟩⟩
  intro el
  by_cases hc : u.role ∈ allowedRolesOf el.roleAccess
  · simp [projectElement, hc]
  · simp [projectElement, hc]

/-- Witness for C3 (amended): cached role `nurse` hides an element
allow-listing `doctor,admin` and shows one allow-listing `nurse,admin`. -/
theorem updateUserUI_role_projection_witness :
    updateUserUI ⟨some "a", some "r", some ⟨"1", "u", "f", "l", "nurse"⟩⟩
        [⟨"doctor,admin", ""⟩, ⟨"nurse,admin", "none"⟩] =
      [⟨"doctor,admin", "none"⟩, ⟨"nurse,admin", ""⟩] := by
  have h := (updateUserUI_role_projection
    ⟨some "a", some "r", some ⟨"1", "u", "f", "l", "nurse"⟩⟩
    [⟨"doctor,admin", ""⟩, ⟨"nurse,admin", "none"⟩]).2 ⟨"1", "u", "f", "l", "nurse"⟩ rfl
  rw [h.1]
  decide

/-! ### C4: client-side validation before login/register network calls -/

/-- C4. A password failing the composite policy is rejected by the
registration form handler with no network call, and (when the username check
before it passes) with the message citing the length/uppercase/digit/symbol
policy; a username shorter than 5 characters is rejected with no network
call, as is a mismatched confirmation; and the (spec-modelled) login form
handler issues no network call for a username shorter than 5 characters. -/
theorem register_client_validation (o : RegisterOutcome) (o' : LoginOutcome) (s : Store)
    (fn ln un em pw cpw : String) :
    (passwordRegexTest pw = false →
      (registerFormHandler o fn ln un em pw cpw).2 = [] ∧
      ∃ m, (registerFormHandler o fn ln un em pw cpw).1 = HandlerResult.alerted m) ∧
    (un.length ≥ 5 → passwordRegexTest pw = false →
      (registerFormHandler o fn ln un em pw cpw).1 =
        HandlerResult.alerted "Password must be at least 8 characters with at least one uppercase letter, number, and special character") ∧
    (un.length < 5 →
      registerFormHandler o fn ln un em pw cpw =
        (HandlerResult.alerted "Username must be at least 5 characters long", [])) ∧
    (pw ≠ cpw → (registerFormHandler o fn ln un em pw cpw).2 = []) ∧
    (un.length < 5 → (loginFormHandler o' s un pw).2.2 = []) := by
  refine ⟨?_, ?_, ?_, ?_, ?_⟩
  · intro hp
    by_cases h5 : un.length < 5 <;>
      simp [registerFormHandler, registerFormSubmit, h5, hp]
  · intro h5 hp
    simp [registerFormHandler, registerFormSubmit, Nat.not_lt.2 h5, hp]
  · intro h5
    simp [registerFormHandler, registerFormSubmit, h5]
  · intro hne
    by_cases h5 : un.length < 5
    · simp [registerFormHandler, registerFormSubmit, h5]
    · by_cases hp : passwordRegexTest pw = true <;>
        simp [registerFormHandler, registerFormSubmit, h5, hp, hne]
  · intro h5
    simp [loginFormHandler, h5]

/-- Witness for C4: `register` with password `abc` is rejected with the
policy message and an empty network trace. -/
theorem register_client_validation_witness :
    registerFormHandler RegisterOutcome.netthrow "Fn" "Ln" "user1" "e" "abc" "abc" =
      (HandlerResult.alerted "Password must be at least 8 characters with at least one uppercase letter, number, and special character", []) := by
  have h := register_client_validation RegisterOutcome.netthrow LoginOutcome.netthrow
    emptyStore "Fn" "Ln" "user1" "e" "abc" "abc"
  rw [Prod.ext_iff]
  exact ⟨h.2.1 (by decide) (by decide), (h.1 (by decide)).1⟩

/-! ### C6: refresh replaces only the access token, failure clears all -/

/-- C6. With a (truthy) refresh token stored: a successful refresh replaces
only the access token — the refresh token and cached user slots of the
resulting store are exactly those of the input store (no rotation) — while a
non-ok response or a transport error clears the entire store (all three
keys). -/
theorem refreshAccessToken_contract (o : RefreshOutcome) (s : Store) (rt : String)
    (h : s.refresh_token = some rt) (hne : rt ≠ "") :
    (∀ tok, o = RefreshOutcome.resp true tok →
      refreshAccessToken o s =
        (true, { s with access_token := some tok }, [Call.refreshReq rt])) ∧
    ((o = RefreshOutcome.netthrow ∨ ∃ tok, o = RefreshOutcome.resp false tok) →
      (refreshAccessToken o s).1 = false ∧ (refreshAccessToken o s).2.1 = emptyStore) := by
  refine ⟨fun tok ho => by rw [ho]; exact refresh_ok s rt tok h hne, fun hf => ?_⟩
  rw [refresh_fail s rt o h hne hf]
  exact ⟨rfl, rfl⟩

/-- Witness for C6: concrete successful refresh keeps refresh token and user;
concrete failed refresh clears the store. -/
theorem refreshAccessToken_contract_witness :
    refreshAccessToken (RefreshOutcome.resp true "new")
        ⟨some "old", some "rt", some ⟨"1", "u", "f", "l", "nurse"⟩⟩ =
      (true, ⟨some "new", some "rt", some ⟨"1", "u", "f", "l", "nurse"⟩⟩,
        [Call.refreshReq "rt"]) ∧
    (refreshAccessToken RefreshOutcome.netthrow
        ⟨some "old", some "rt", some ⟨"1", "u", "f", "l", "nurse"⟩⟩).2.1 = emptyStore := by
  constructor
  · exact (refreshAccessToken_contract (RefreshOutcome.resp true "new")
      ⟨some "old", some "rt", some ⟨"1", "u", "f", "l", "nurse"⟩⟩ "rt" rfl
      (by decide)).1 "new" rfl
  · exact ((refreshAccessToken_contract RefreshOutcome.netthrow
      ⟨some "old", some "rt", some ⟨"1", "u", "f", "l", "nurse"⟩⟩ "rt" rfl
      (by decide)).2 (Or.inl rfl)).2

/-! ### C7: login populates all three keys atomically, or nothing -/

/-- C7. On an ok response `login` returns the user profile with success and
the resulting store holds all three keys (access token, refresh token,
cached user) — set together in one step; on a non-ok response or transport
error it returns a failure message and the store is exactly the input store
(no mutation). -/
theorem login_contract (o : LoginOutcome) (s : Store) (un pw : String) :
    (∀ data, o = LoginOutcome.resp true data →
      login o s un pw =
        (LoginResult.ok ⟨data.user_id, data.username, data.first_name, data.last_name,
          data.role⟩,
         ⟨some data.access_token, some data.refresh_token,
          some ⟨data.user_id, data.username, data.first_name, data.last_name, data.role⟩⟩,
         [Call.loginReq un pw])) ∧
    ((o = LoginOutcome.netthrow ∨ ∃ data, o = LoginOutcome.resp false data) →
      (∃ m, (login o s un pw).1 = LoginResult.err m) ∧ (login o s un pw).2.1 = s) := by
  constructor
  · intro data ho
    subst ho
    simp [login]
  · intro hf
    rcases hf with hf | ⟨data, hf⟩ <;> subst hf
    · exact ⟨⟨"Network error. Please try again.", rfl⟩, rfl⟩
    · exact ⟨⟨data.error.getD "Login failed", by simp [login]⟩, by simp [login]⟩

/-- Witness for C7: a concrete ok login sets all three keys; a concrete
failed login leaves the store untouched. -/
theorem login_contract_witness :
    login (LoginOutcome.resp true ⟨none, "at", "rt", "1", "u", "f", "l", "nurse"⟩)
        emptyStore "u" "p" =
      (LoginResult.ok ⟨"1", "u", "f", "l", "nurse"⟩,
        ⟨some "at", some "rt", some ⟨"1", "u", "f", "l", "nurse"⟩⟩,
        [Call.loginReq "u" "p"]) ∧
    (login LoginOutcome.netthrow emptyStore "u" "p").2.1 = emptyStore := by
  constructor
  · exact (login_contract (LoginOutcome.resp true ⟨none, "at", "rt", "1", "u", "f", "l", "nurse"⟩)
      emptyStore "u" "p").1 ⟨none, "at", "rt", "1", "u", "f", "l", "nurse"⟩ rfl
  · exact ((login_contract LoginOutcome.netthrow emptyStore "u" "p").2 (Or.inl rfl)).2

/-! ### C9: the access-token/cached-user coupling invariant -/

/-- Inductive strengthening of the coupling invariant: access token and
cached user are both present or both absent, and a refresh token never
exists without a cached user (so a refresh can never manufacture an access
token in a userless store). -/
def StoreInv (s : Store) : Prop :=
  s.access_token.isSome = s.user.isSome ∧
    (s.refresh_token.isSome = true → s.user.isSome = true)

theorem storeInv_empty : StoreInv emptyStore := by
  simp [StoreInv, emptyStore]

theorem storeInv_login (o : LoginOutcome) (un pw : String) (s : Store) (h : StoreInv s) :
    StoreInv (login o s un pw).2.1 := by
  cases o with
  | netthrow => simpa [login] using h
  | resp ok data =>
    cases ok with
    | true => simp [login, StoreInv]
    | false => simpa [login] using h

theorem storeInv_logout (s : Store) : StoreInv (logout s).1 := by
  rw [logout_store]
  exact storeInv_empty

theorem storeInv_refresh (o : RefreshOutcome) (s : Store) (h : StoreInv s) :
    StoreInv (refreshAccessToken o s).2.1 := by
  by_cases hrt : truthy s.refresh_token = true
  · rcases (truthy_iff _).1 hrt with ⟨rt, hr, hne⟩
    cases o with
    | netthrow =>
      rw [refresh_fail s rt _ hr hne (Or.inl rfl)]
      exact storeInv_empty
    | resp ok tok =>
      cases ok with
      | true =>
        rw [refresh_ok s rt tok hr hne]
        have hu : s.user.isSome = true := h.2 (by rw [hr]; rfl)
        exact ⟨by simp [hu], fun _ => hu⟩
      | false =>
        rw [refresh_fail s rt _ hr hne (Or.inr ⟨tok, rfl⟩)]
        exact storeInv_empty
  · rw [refresh_no_token s o (Bool.not_eq_true _ ▸ hrt)]
    exact h

theorem storeInv_isAuth (now : Int) (decode : String → DecodeResult) (o : RefreshOutcome)
    (s : Store) (h : StoreInv s) : StoreInv (isAuthenticated now decode o s).2.1 := by
  by_cases hta : truthy s.access_token = true
  · rcases (truthy_iff _).1 hta with ⟨t, ht, hne⟩
    cases hd : decode t with
    | throws =>
      rw [isAuth_throws now decode o s t ht hne hd]
      exact storeInv_empty
    | payload exp =>
      by_cases hexp : expiredCheck now exp = true
      · cases exp with
        | none => simp [expiredCheck] at hexp
        | some e =>
          have he : now ≥ e * 1000 := by simpa [expiredCheck] using hexp
          by_cases hr : truthy s.refresh_token = true
          · rw [isAuth_expired_refresh now decode o s t e ht hne hd he hr]
            exact storeInv_refresh o s h
          · rw [isAuth_expired_terminal now decode o s t e ht hne hd he
              (Bool.not_eq_true _ ▸ hr)]
            exact storeInv_empty
      · rw [isAuth_valid_case now decode o s t exp ht hne hd (Bool.not_eq_true _ ▸ hexp)]
        exact h
  · rw [isAuth_no_token now decode o s (Bool.not_eq_true _ ▸ hta)]
    exact h

/-- Store states reachable from the empty store by the session operations
(login with any outcome, logout, refresh with any outcome, and the validity
check including its forced-logout paths). -/
inductive Reachable : Store → Prop where
  | base : Reachable emptyStore
  | loginStep (o : LoginOutcome) (un pw : String) {s : Store} :
      Reachable s → Reachable (login o s un pw).2.1
  | logoutStep {s : Store} : Reachable s → Reachable (logout s).1
  | refreshStep (o : RefreshOutcome) {s : Store} :
      Reachable s → Reachable (refreshAccessToken o s).2.1
  | authStep (now : Int) (decode : String → DecodeResult) (o : RefreshOutcome) {s : Store} :
      Reachable s → Reachable (isAuthenticated now decode o s).2.1

theorem storeInv_reachable (s : Store) (h : Reachable s) : StoreInv s := by
  induction h with
  | base => exact storeInv_empty
  | loginStep o un pw _ ih => exact storeInv_login o un pw _ ih
  | logoutStep _ ih => exact storeInv_logout _
  | refreshStep o _ ih => exact storeInv_refresh o _ ih
  | authStep now decode o _ ih => exact storeInv_isAuth now decode o _ ih

/-- C9. In every Token Store state reachable from the empty store by the
session operations (login, logout, refreshAccessToken, and the validity
check with its forced-logout paths), the access token and the cached user
are both present or both absent. -/
theorem reachable_access_user_coupled (s : Store) (h : Reachable s) :
    s.access_token.isSome = s.user.isSome :=
  (storeInv_reachable s h).1

/-- Witness for C9: the state reached by a successful login from the empty
store satisfies the coupling. -/
theorem reachable_access_user_coupled_witness :
    ((login (LoginOutcome.resp true ⟨none, "at", "rt", "1", "u", "f", "l", "nurse"⟩)
        emptyStore "u" "p").2.1).access_token.isSome =
      ((login (LoginOutcome.resp true ⟨none, "at", "rt", "1", "u", "f", "l", "nurse"⟩)
        emptyStore "u" "p").2.1).user.isSome :=
  reachable_access_user_coupled _
    (Reachable.loginStep (LoginOutcome.resp true ⟨none, "at", "rt", "1", "u", "f", "l", "nurse"⟩)
      "u" "p" Reachable.base)

end HPMS
